import Mathlib

/-!
Verification of the simply-learn content-processing pipeline's client and
rate-limiting layers, shallowly embedded from the TypeScript sources.

Embedding conventions:
* JavaScript objects with integer-like keys (the `simplified_chunks`
  snapshot maps) are association lists `List (Nat × String)`; a real JS
  object has unique keys, which appears as a `Nodup` hypothesis where the
  proof needs it.
* JavaScript truthiness on optional strings / numbers is made explicit
  (`none` and `""` are falsy; `0` is falsy).
* Timestamps are integer epoch milliseconds; `Math.floor` of a division
  is `Int.fdiv`.
* Fallible or crashing paths return `Option` (`none` models the branch of
  `getCombinedSimplifiedContent` that evaluates the undefined identifier
  `content`, which would throw a ReferenceError at runtime).
-/

/-- JS truthiness for an optional string value: `null`/`undefined` and `""` are falsy. -/
def jsTruthyStr : Option String → Bool
  | some s => s ≠ ""
  | none => false

/-- JS truthiness for an optional numeric value: `null`/`undefined` and `0` are falsy. -/
def jsTruthyNat : Option Nat → Bool
  | some n => n ≠ 0
  | none => false

/-- JS `a || b` on an optional string `a` with string fallback `b`. -/
def jsOrStr (a : Option String) (b : String) : String :=
  match a with
  | some s => if s = "" then b else s
  | none => b

/-- JS `s.startsWith(p)`, computed on the character lists. -/
def jsStartsWith (s p : String) : Bool := p.data.isPrefixOf s.data

/-- One parsed SSE message pushed by the progress stream server
(shape from `useSimplifierProgress.ts` / `SimplifiedView.tsx`):
`{status?, simplified_chunks?, total_chunks?, processed_chunks?, completed?, error?}`. -/
structure SSEData where
  status : Option String
  simplified_chunks : Option (List (Nat × String))
  total_chunks : Option Nat
  processed_chunks : Option Nat
  completed : Bool
  error : Option String
deriving DecidableEq, Repr

/-- React state of the `SimplifiedTab` component (`SimplifiedView.tsx`):
the accumulated chunk map, progress and terminal flags, plus whether the
current `EventSource` is still open. -/
structure TabState where
  simplifiedChunks : List (Nat × String)
  streamingComplete : Bool
  streamingError : Option String
  progress : Nat
  isConnected : Bool
  connectionOpen : Bool
deriving DecidableEq, Repr

/-- `Math.round((processed / total) * 100)` for naturals: round-half-up of the
exact rational `100 * processed / total`. -/
def roundPercent (processed total : Nat) : Nat :=
  (200 * processed + total) / (2 * total)

/-- `eventSource.onmessage` of `SimplifiedTab` (`SimplifiedView.tsx` lines 41-77):
ignore a `not_found` status; otherwise replace the chunk map with the
snapshot's map when present, recompute the progress percentage when both
counters are truthy, and on a truthy `completed` / `error` set the
corresponding flag and close the connection. -/
def simplifiedTabOnMessage (s : TabState) (d : SSEData) : TabState :=
  if d.status = some "not_found" then s
  else
    let s1 := match d.simplified_chunks with
      | some m => { s with simplifiedChunks := m }
      | none => s
    let s2 := if jsTruthyNat d.total_chunks && jsTruthyNat d.processed_chunks then
        { s1 with progress := roundPercent (d.processed_chunks.getD 0) (d.total_chunks.getD 0) }
      else s1
    let s3 := if d.completed then
        { s2 with streamingComplete := true, connectionOpen := false }
      else s2
    if jsTruthyStr d.error then
      { s3 with streamingError := d.error, connectionOpen := false }
    else s3

/-- State of the `useSimplificationProgress` hook (`useSimplifierProgress.ts`). -/
structure HookState where
  progress : Option SSEData
  loading : Bool
  error : Option String
  connectionOpen : Bool
deriving DecidableEq, Repr

/-- `eventSource.onmessage` of `useSimplificationProgress`
(`useSimplifierProgress.ts` lines 34-49): ignore a `not_found` status;
otherwise store the whole snapshot and, when `completed || error` is truthy,
close the connection and clear the loading flag. -/
def useSimplificationProgressOnMessage (s : HookState) (d : SSEData) : HookState :=
  if d.status = some "not_found" then s
  else
    let s1 := { s with progress := some d }
    if d.completed || jsTruthyStr d.error then
      { s1 with connectionOpen := false, loading := false }
    else s1

/-- Comparison used by `getCombinedSimplifiedContent`'s
`.sort(([a], [b]) => parseInt(a) - parseInt(b))`: ascending on the numeric
chunk index. -/
def chunkLE (a b : Nat × String) : Prop := a.1 ≤ b.1

instance : DecidableRel chunkLE := fun a b => inferInstanceAs (Decidable (a.1 ≤ b.1))

instance : IsTotal (Nat × String) chunkLE := ⟨fun a b => Nat.le_total a.1 b.1⟩

instance : IsTrans (Nat × String) chunkLE := ⟨fun _ _ _ h₁ h₂ => Nat.le_trans h₁ h₂⟩

/-- `getCombinedSimplifiedContent` (`SimplifiedView.tsx` lines 104-112): when the
accumulated map is empty the source returns the undefined identifier `content`
(a ReferenceError at runtime, modelled as `none`); otherwise the entries are
sorted ascending by numeric index and the texts joined with `"\n\n"`. -/
def getCombinedSimplifiedContent (simplifiedChunks : List (Nat × String)) : Option String :=
  if simplifiedChunks.length = 0 then none
  else
    some (String.intercalate "\n\n"
      ((List.insertionSort chunkLE simplifiedChunks).map Prod.snd))

/-- The three render branches of `SimplifiedTab` (`SimplifiedView.tsx` lines
115-186): the `!fileId` plain branch, the empty-map loading skeleton, and the
final branch that embeds `getCombinedSimplifiedContent`'s result. -/
inductive RenderBranch where
  | plainContent : RenderBranch
  | loadingSkeleton (progress : Nat) : RenderBranch
  | combined (html : Option String) : RenderBranch
deriving DecidableEq, Repr

/-- The render body of `SimplifiedTab`: early-return on `!fileId`, then on an
empty chunk map, else the final render which invokes
`getCombinedSimplifiedContent`. -/
def renderSimplifiedTab (fileId : Option String) (s : TabState) : RenderBranch :=
  if !jsTruthyStr fileId then .plainContent
  else if jsTruthyStr fileId && s.simplifiedChunks.length == 0 then .loadingSkeleton s.progress
  else .combined (getCombinedSimplifiedContent s.simplifiedChunks)

/-- Result of `@upstash/ratelimit`'s `limiter.limit(identifier)` as consumed by
the routes: `{success, limit, remaining, reset}` with `reset` in epoch ms. -/
structure RateLimitResult where
  success : Bool
  limit : Nat
  remaining : Nat
  reset : Int
deriving DecidableEq, Repr

/-- The limit configured in `lib/rateLimit.js`:
`Ratelimit.slidingWindow(5, "1 d")`. -/
def configuredLimit : Nat := 5

/-- Modelled from the spec: the sliding-window admission counter of section 4.3
(the implementation lives in the external `@upstash/ratelimit` package that
`lib/rateLimit.js` configures, so only its contract is in this repository).
Within a live window each call atomically increments the per-identity counter;
the call is admitted when the new count is within the limit, and
`remaining = max(0, limit - count)`. Returns the new counter value together
with the `{success, limit, remaining, reset}` record the caller sees. -/
def limiterLimit (limit count : Nat) (reset : Int) : Nat × RateLimitResult :=
  let c := count + 1
  (c, { success := c ≤ limit, limit := limit, remaining := limit - c, reset := reset })

/-- A burst of admission checks sharing one fresh identity inside one window:
fold `limiterLimit` over the arrival order, tagging each call with its verdict. -/
def runAdmissions (limit : Nat) (count : Nat) : List Nat → List (Nat × Bool)
  | [] => []
  | c :: cs =>
    let step := limiterLimit limit count 0
    (c, step.2.success) :: runAdmissions limit step.1 cs

/-- Number of admitted calls in a burst started on a fresh identity. -/
def admittedCount (limit : Nat) (calls : List Nat) : Nat :=
  ((runAdmissions limit 0 calls).filter (fun p => p.2)).length

/-- Number of rejected calls in a burst started on a fresh identity. -/
def rejectedCount (limit : Nat) (calls : List Nat) : Nat :=
  ((runAdmissions limit 0 calls).filter (fun p => !p.2)).length

/-- Body of the `GET /api/limits` success response (`app/api/limits/route.js`
lines 11-21): `{success: true, limits: {total, remaining, used, resetAt,
resetIn}}`. `resetAt` carries the instant that `new Date(reset).toISOString()`
renders; the model keeps the epoch-ms value itself. -/
structure LimitsBody where
  success : Bool
  total : Nat
  remaining : Nat
  used : Int
  resetAt : Int
  resetIn : Int
deriving DecidableEq, Repr

/-- An HTTP response as far as the claims observe it: status and headers. -/
structure HttpResponse where
  status : Nat
  headers : List (String × String)
deriving DecidableEq, Repr

/-- The `GET` handler of `app/api/limits/route.js` (success path, lines 6-30):
status 200, body derived from `checkRateLimit`'s result, and the three
`X-RateLimit-*` headers. -/
def limitsRouteGET (r : RateLimitResult) (now : Int) : HttpResponse × LimitsBody :=
  ({ status := 200
   , headers :=
      [ ("X-RateLimit-Limit", toString r.limit)
      , ("X-RateLimit-Remaining", toString r.remaining)
      , ("X-RateLimit-Reset", toString r.reset) ] },
   { success := true
   , total := r.limit
   , remaining := r.remaining
   , used := (r.limit : Int) - (r.remaining : Int)
   , resetAt := r.reset
   , resetIn := (r.reset - now).fdiv 1000 })

/-- `RATE_LIMITED_PATHS` of `src/client/src/middleware.ts`. -/
def RATE_LIMITED_PATHS : List String := ["/api/files/upload"]

/-- The active `middleware` at the bottom of `src/client/src/middleware.ts`:
`return await updateSession(request)` — the session response is passed through
unchanged and no rate limiting happens. -/
def middleware (sessionResponse : HttpResponse) : HttpResponse := sessionResponse

/-- Body of the rejection response in the commented-out rate-limiting branch of
`middleware.ts` (lines 50-58): `{success, message, limit, remaining, resetAt}` —
note there is no `resetIn` field in this body. -/
structure MiddlewareRejectionBody where
  success : Bool
  limit : Nat
  remaining : Nat
  resetAt : Int
deriving DecidableEq, Repr

/-- The commented-out rate-limiting branch of `middleware.ts` (lines 43-90),
which is not executed by the active middleware: on a rate-limited path, a
failed admission yields a 429 with `X-RateLimit-*` and `Retry-After` headers
and a body reporting `remaining: 0` and `resetAt`; a successful admission
passes the session response through with `X-RateLimit-*` headers appended. -/
def commentedMiddlewareRateLimitBranch (pathname : String) (r : RateLimitResult)
    (now : Int) (sessionResponse : HttpResponse) :
    HttpResponse × Option MiddlewareRejectionBody :=
  if RATE_LIMITED_PATHS.any (fun p => jsStartsWith pathname p) then
    if !r.success then
      ({ status := 429
       , headers :=
          [ ("Content-Type", "application/json")
          , ("X-RateLimit-Limit", toString r.limit)
          , ("X-RateLimit-Remaining", "0")
          , ("X-RateLimit-Reset", toString r.reset)
          , ("Retry-After", toString ((r.reset - now).fdiv 1000)) ] },
       some { success := false, limit := r.limit, remaining := 0, resetAt := r.reset })
    else
      ({ status := sessionResponse.status
       , headers := sessionResponse.headers ++
          [ ("X-RateLimit-Limit", toString r.limit)
          , ("X-RateLimit-Remaining", toString r.remaining)
          , ("X-RateLimit-Reset", toString r.reset) ] },
       none)
  else (sessionResponse, none)

/-- `getVisitorId` of `lib/rateLimit.js` (lines 27-50): reuse the truthy
`visitor_id` cookie, else mint `freshUuid` and set it with a 30-day `maxAge`;
the identity is `visitorId:ip` where `ip` is
`x-forwarded-for || x-real-ip || "127.0.0.1"`. Returns the identity together
with the cookie write (value, maxAge seconds) when one happens. -/
def getVisitorId (cookieValue : Option String) (freshUuid : String)
    (xForwardedFor xRealIp : Option String) : String × Option (String × Nat) :=
  let existing := match cookieValue with
    | some v => if v = "" then none else some v
    | none => none
  let minted := match existing with
    | some v => (v, (none : Option (String × Nat)))
    | none => (freshUuid, some (freshUuid, 60 * 60 * 24 * 30))
  let ip := jsOrStr xForwardedFor (jsOrStr xRealIp "127.0.0.1")
  (minted.1 ++ ":" ++ ip, minted.2)

/-- A cognitive profile as destructured by the simplify-content route
(`src/client/src/app/api/simplify-content/route.ts`). Any present object is
truthy in JS, so only presence matters to the validation guard. -/
structure CognitiveProfile where
  memory : Int
  attention : Int
  language : Int
  visualSpatial : Int
  executive : Int
deriving DecidableEq, Repr

/-- Observable outcome of one `POST /api/simplify-content` request: HTTP
status, body fields, and whether the external completion call
(`groqClient.chat.completions.create`) was reached. -/
structure SimplifyResponse where
  status : Nat
  success : Bool
  error : Option String
  adaptedContent : Option String
  groqCalled : Bool
deriving DecidableEq, Repr

/-- The `POST` handler of `src/client/src/app/api/simplify-content/route.ts`
(lines 143-178, identical guard in the `app/api/simplify-content` variant):
when `content`, `level` or `cognitiveProfile` is falsy, return 400 with
`{success: false, error}` before any completion call; otherwise call the
completion service and return its text. `completionText` stands for the
opaque external service's reply. -/
def simplifyContentPOST (content level : Option String)
    (cognitiveProfile : Option CognitiveProfile) (completionText : String) :
    SimplifyResponse :=
  if !jsTruthyStr content || !jsTruthyStr level || cognitiveProfile.isNone then
    { status := 400, success := false
    , error := some "Missing content or level or cognitive profile in the request."
    , adaptedContent := none, groqCalled := false }
  else
    { status := 200, success := true, error := none
    , adaptedContent := some completionText, groqCalled := true }

/-- What one `eventSource.onerror` handler does, transcribed per subscriber:
whether it closes the connection, the reconnect delay it schedules (none =
no retry), and whether it pushes an error object into the subscriber's data
callback (the channel that also carries job results). -/
structure OnErrorBehavior where
  closesConnection : Bool
  reconnectDelayMs : Option Nat
  deliversErrorToUpdateCallback : Bool
deriving DecidableEq, Repr

/-- `onerror` of `useSimplificationProgress` (`useSimplifierProgress.ts` lines
57-66): set a transient error message, close, reconnect after 3000 ms. -/
def useSimplificationProgressOnError : OnErrorBehavior :=
  { closesConnection := true, reconnectDelayMs := some 3000
  , deliversErrorToUpdateCallback := false }

/-- `onerror` of `SimplifiedTab` (`SimplifiedView.tsx` lines 80-90): set a
transient error message, close, reconnect after 3000 ms. -/
def simplifiedTabOnError : OnErrorBehavior :=
  { closesConnection := true, reconnectDelayMs := some 3000
  , deliversErrorToUpdateCallback := false }

/-- `onerror` of `trackTaskStatus` (`vectorDbService.ts` lines 414-418): close
the connection and call `onUpdate({error: "Connection error", taskId})`;
no reconnect is scheduled. -/
def trackTaskStatusOnError : OnErrorBehavior :=
  { closesConnection := true, reconnectDelayMs := none
  , deliversErrorToUpdateCallback := true }

/-- The stream subscribers' error handlers in the client sources. -/
def sseOnErrorBehaviors : List OnErrorBehavior :=
  [useSimplificationProgressOnError, simplifiedTabOnError, trackTaskStatusOnError]

/-- Effect of `SimplifiedTab`'s `onerror` on the component state
(`SimplifiedView.tsx` lines 80-90): only the connection flag and the
transient error message change; chunks, progress and the terminal flag are
untouched. -/
def simplifiedTabOnErrorStep (s : TabState) : TabState :=
  { s with isConnected := false,
           streamingError := some "Connection error. Reconnecting...",
           connectionOpen := false }

/-- Helper: two lists of chunk entries that are permutations of one another,
both sorted ascending by index, with duplicate-free indices, are equal. -/
lemma sorted_keyNodup_perm_eq :
    ∀ {l₁ l₂ : List (Nat × String)}, l₁.Perm l₂ → List.Sorted chunkLE l₁ →
      List.Sorted chunkLE l₂ → (l₁.map Prod.fst).Nodup → l₁ = l₂ := by
  intro l₁
  induction l₁ with
  | nil =>
    intro l₂ hp _ _ _
    exact hp.nil_eq
  | cons a t ih =>
    intro l₂ hp hs₁ hs₂ hnd
    cases l₂ with
    | nil => exact absurd hp.eq_nil (by simp)
    | cons b t₂ =>
      have hab : a = b := by
        have hbmem : b ∈ a :: t := hp.symm.subset (List.mem_cons_self b t₂)
        have hamem : a ∈ b :: t₂ := hp.subset (List.mem_cons_self a t)
        rcases List.mem_cons.mp hbmem with hb | hb
        · exact hb.symm
        · rcases List.mem_cons.mp hamem with ha | ha
          · exact ha
          · exfalso
            have h₁ : a.1 ≤ b.1 := List.rel_of_sorted_cons hs₁ b hb
            have h₂ : b.1 ≤ a.1 := List.rel_of_sorted_cons hs₂ a ha
            have hkey : a.1 = b.1 := Nat.le_antisymm h₁ h₂
            have hnotin : a.1 ∉ t.map Prod.fst := (List.nodup_cons.mp (by simpa using hnd)).1
            exact hnotin (hkey ▸ List.mem_map_of_mem Prod.fst hb)
      subst hab
      have hpt : t.Perm t₂ := hp.cons_inv
      have htnd : (t.map Prod.fst).Nodup := (List.nodup_cons.mp (by simpa using hnd)).2
      rw [ih hpt hs₁.of_cons hs₂.of_cons htnd]

/-- C7: a pushed message whose payload carries the distinguished not-found
status (`{status: "not_found"}`) is a no-op for both stream subscribers: the
accumulated chunk results, progress counters and terminal flags are unchanged
and the connection stays open (neither handler closes the stream or records
an error). -/
theorem not_found_message_is_noop (s : TabState) (hk : HookState) (d : SSEData)
    (hd : d.status = some "not_found") :
    simplifiedTabOnMessage s d = s ∧ useSimplificationProgressOnMessage hk d = hk := by
  constructor
  · unfold simplifiedTabOnMessage
    rw [if_pos hd]
  · unfold useSimplificationProgressOnMessage
    rw [if_pos hd]

/-- Witness for C7 at a concrete state and message. -/
theorem not_found_message_is_noop_witness :
    simplifiedTabOnMessage ⟨[(0, "a")], false, none, 50, true, true⟩
        ⟨some "not_found", some [(1, "b")], some 2, some 2, true, some "boom"⟩ =
      ⟨[(0, "a")], false, none, 50, true, true⟩ ∧
    useSimplificationProgressOnMessage ⟨none, true, none, true⟩
        ⟨some "not_found", some [(1, "b")], some 2, some 2, true, some "boom"⟩ =
      ⟨none, true, none, true⟩ :=
  not_found_message_is_noop ⟨[(0, "a")], false, none, 50, true, true⟩ ⟨none, true, none, true⟩
    ⟨some "not_found", some [(1, "b")], some 2, some 2, true, some "boom"⟩ rfl

/-- C10: the fallback branch of `getCombinedSimplifiedContent` that evaluates
the undefined identifier `content` (the empty-map case, modelled as `none`) is
unreachable from the render: whenever `renderSimplifiedTab` reaches the branch
that invokes `getCombinedSimplifiedContent`, the accumulated map is non-empty
and the invocation yields the joined text, never the fallback. -/
theorem content_fallback_unreachable (fileId : Option String) (s : TabState)
    (html : Option String)
    (hinv : renderSimplifiedTab fileId s = RenderBranch.combined html) :
    s.simplifiedChunks.length ≠ 0 ∧ html.isSome := by
  unfold renderSimplifiedTab at hinv
  by_cases h1 : jsTruthyStr fileId
  · by_cases h2 : s.simplifiedChunks.length = 0
    · simp [h1, h2] at hinv
    · simp [h1, h2, getCombinedSimplifiedContent] at hinv
      exact ⟨h2, by rw [← hinv]; rfl⟩
  · simp [h1] at hinv

/-- Witness for C10 at a concrete render. -/
theorem content_fallback_unreachable_witness :
    (⟨[(0, "a")], false, none, 100, true, true⟩ : TabState).simplifiedChunks.length ≠ 0 ∧
    (some "a" : Option String).isSome :=
  content_fallback_unreachable (some "file-1") ⟨[(0, "a")], false, none, 100, true, true⟩
    (some "a") (by decide)

/-- C8: a submission to `POST /api/simplify-content` in which `content`,
`level` or `cognitiveProfile` is missing or empty is answered synchronously
with status 400 and `{success: false, error}`, and the external completion
service is never called (no work is created for the request). -/
theorem validation_rejects_before_completion
    (content level : Option String) (profile : Option CognitiveProfile) (txt : String)
    (h : ¬ jsTruthyStr content ∨ ¬ jsTruthyStr level ∨ profile = none) :
    (simplifyContentPOST content level profile txt).status = 400 ∧
    (simplifyContentPOST content level profile txt).success = false ∧
    (simplifyContentPOST content level profile txt).error.isSome = true ∧
    (simplifyContentPOST content level profile txt).groqCalled = false := by
  rcases h with h | h | h <;>
    simp_all [simplifyContentPOST]

/-- Witness for C8: empty `content` with the other fields present. -/
theorem validation_rejects_before_completion_witness :
    (simplifyContentPOST (some "") (some "B1") (some ⟨5, 5, 5, 5, 5⟩) "ignored").status = 400 ∧
    (simplifyContentPOST (some "") (some "B1") (some ⟨5, 5, 5, 5, 5⟩) "ignored").success = false ∧
    (simplifyContentPOST (some "") (some "B1") (some ⟨5, 5, 5, 5, 5⟩) "ignored").error.isSome = true ∧
    (simplifyContentPOST (some "") (some "B1") (some ⟨5, 5, 5, 5, 5⟩) "ignored").groqCalled = false :=
  validation_rejects_before_completion (some "") (some "B1") (some ⟨5, 5, 5, 5, 5⟩) "ignored"
    (Or.inl (by decide))

/-- C6: the visitor identity is `token:origin` — the persisted (or freshly
minted, 30-day) cookie token concatenated with a `:` and the apparent network
origin (`x-forwarded-for`, else `x-real-ip`, else `127.0.0.1`); two requests
carrying the same cookie token and the same origin headers derive the same
identity, whatever UUID the fallback would have minted. -/
theorem visitor_identity_derivation (cookieValue : Option String) (freshUuid : String)
    (t u1 u2 : String) (xf xr : Option String) (ht : t ≠ "") :
    (getVisitorId cookieValue freshUuid xf xr).1 =
      (match cookieValue with
        | some v => if v = "" then freshUuid else v
        | none => freshUuid) ++ ":" ++ jsOrStr xf (jsOrStr xr "127.0.0.1") ∧
    (getVisitorId (some t) u1 xf xr).1 = (getVisitorId (some t) u2 xf xr).1 ∧
    (getVisitorId none freshUuid xf xr).2 = some (freshUuid, 60 * 60 * 24 * 30) := by
  refine ⟨?_, ?_, ?_⟩
  · cases cookieValue with
    | none => simp [getVisitorId]
    | some v =>
      by_cases hv : v = "" <;> simp [getVisitorId, hv]
  · simp [getVisitorId, ht]
  · simp [getVisitorId]

/-- Witness for C6 at a concrete cookie and headers. -/
theorem visitor_identity_derivation_witness :
    (getVisitorId (some "token-1") "uuid-a" (some "10.0.0.9") none).1 =
      (match (some "token-1" : Option String) with
        | some v => if v = "" then "uuid-a" else v
        | none => "uuid-a") ++ ":" ++ jsOrStr (some "10.0.0.9") (jsOrStr none "127.0.0.1") ∧
    (getVisitorId (some "token-1") "uuid-a" (some "10.0.0.9") none).1 =
      (getVisitorId (some "token-1") "uuid-b" (some "10.0.0.9") none).1 ∧
    (getVisitorId none "uuid-a" (some "10.0.0.9") none).2 = some ("uuid-a", 60 * 60 * 24 * 30) :=
  visitor_identity_derivation (some "token-1") "uuid-a" "token-1" "uuid-a" "uuid-b"
    (some "10.0.0.9") none (by decide)

/-- C5: the success path of `GET /api/limits` returns status 200 and body
`{success: true, limits: {total, remaining, used, resetAt, resetIn}}` with
`total` the configured limit, `used = total - remaining`, `resetAt` the window
reset instant, `resetIn = floor((reset - now) / 1000)`, and the three
`X-RateLimit-*` headers carrying the same values. -/
theorem limits_route_shape (r : RateLimitResult) (now : Int)
    (h : r.limit = configuredLimit) :
    (limitsRouteGET r now).1.status = 200 ∧
    (limitsRouteGET r now).2.success = true ∧
    (limitsRouteGET r now).2.total = configuredLimit ∧
    (limitsRouteGET r now).2.used =
      ((limitsRouteGET r now).2.total : Int) - ((limitsRouteGET r now).2.remaining : Int) ∧
    (limitsRouteGET r now).2.resetAt = r.reset ∧
    (limitsRouteGET r now).2.resetIn = (r.reset - now).fdiv 1000 ∧
    (limitsRouteGET r now).1.headers =
      [ ("X-RateLimit-Limit", toString (limitsRouteGET r now).2.total)
      , ("X-RateLimit-Remaining", toString (limitsRouteGET r now).2.remaining)
      , ("X-RateLimit-Reset", toString (limitsRouteGET r now).2.resetAt) ] := by
  simp [limitsRouteGET, h]

/-- Witness for C5 at a concrete limiter result. -/
theorem limits_route_shape_witness :
    (limitsRouteGET ⟨true, 5, 4, 1700000000000⟩ 1699999000000).1.status = 200 ∧
    (limitsRouteGET ⟨true, 5, 4, 1700000000000⟩ 1699999000000).2.success = true ∧
    (limitsRouteGET ⟨true, 5, 4, 1700000000000⟩ 1699999000000).2.total = configuredLimit ∧
    (limitsRouteGET ⟨true, 5, 4, 1700000000000⟩ 1699999000000).2.used =
      ((limitsRouteGET ⟨true, 5, 4, 1700000000000⟩ 1699999000000).2.total : Int) -
        ((limitsRouteGET ⟨true, 5, 4, 1700000000000⟩ 1699999000000).2.remaining : Int) ∧
    (limitsRouteGET ⟨true, 5, 4, 1700000000000⟩ 1699999000000).2.resetAt = (1700000000000 : Int) ∧
    (limitsRouteGET ⟨true, 5, 4, 1700000000000⟩ 1699999000000).2.resetIn =
      ((1700000000000 : Int) - 1699999000000).fdiv 1000 ∧
    (limitsRouteGET ⟨true, 5, 4, 1700000000000⟩ 1699999000000).1.headers =
      [ ("X-RateLimit-Limit",
          toString (limitsRouteGET ⟨true, 5, 4, 1700000000000⟩ 1699999000000).2.total)
      , ("X-RateLimit-Remaining",
          toString (limitsRouteGET ⟨true, 5, 4, 1700000000000⟩ 1699999000000).2.remaining)
      , ("X-RateLimit-Reset",
          toString (limitsRouteGET ⟨true, 5, 4, 1700000000000⟩ 1699999000000).2.resetAt) ] :=
  limits_route_shape ⟨true, 5, 4, 1700000000000⟩ 1699999000000 rfl

/-- C9: `GET /api/limits` itself consumes an admission — the handler goes
through the limiter's consuming `limit()` call, so the identity's counter
grows by one on every status check, and for two consecutive checks in one
window with `remaining` still positive, the second response's `remaining` is
strictly smaller and its `used` strictly larger. -/
theorem limits_route_consumes_admission (L c : Nat) (reset now₁ now₂ : Int)
    (hpos : 0 < (limitsRouteGET (limiterLimit L c reset).2 now₁).2.remaining) :
    (limiterLimit L c reset).1 = c + 1 ∧
    (limitsRouteGET (limiterLimit L (limiterLimit L c reset).1 reset).2 now₂).2.remaining <
      (limitsRouteGET (limiterLimit L c reset).2 now₁).2.remaining ∧
    (limitsRouteGET (limiterLimit L c reset).2 now₁).2.used <
      (limitsRouteGET (limiterLimit L (limiterLimit L c reset).1 reset).2 now₂).2.used := by
  simp [limiterLimit, limitsRouteGET] at hpos ⊢
  omega

/-- Witness for C9: a fresh identity with the configured limit, checked twice. -/
theorem limits_route_consumes_admission_witness :
    (limiterLimit 5 0 1700000000000).1 = 0 + 1 ∧
    (limitsRouteGET (limiterLimit 5 (limiterLimit 5 0 1700000000000).1 1700000000000).2
        1699999000500).2.remaining <
      (limitsRouteGET (limiterLimit 5 0 1700000000000).2 1699999000000).2.remaining ∧
    (limitsRouteGET (limiterLimit 5 0 1700000000000).2 1699999000000).2.used <
      (limitsRouteGET (limiterLimit 5 (limiterLimit 5 0 1700000000000).1 1700000000000).2
        1699999000500).2.used :=
  limits_route_consumes_admission 5 0 1700000000000 1699999000000 1699999000500 (by decide)

/-- C2 counterexample: it is not true that every stream subscriber's transport
error handler schedules a 3-second retry without surfacing the error —
`trackTaskStatus` (`vectorDbService.ts`) closes the connection, schedules no
reconnect, and pushes an error object into the subscriber's update callback. -/
theorem sse_retry_counterexample :
    ¬ (∀ b ∈ sseOnErrorBehaviors,
        b.reconnectDelayMs = some 3000 ∧ b.deliversErrorToUpdateCallback = false) := by
  decide

/-- C2 amended: the two simplification-progress subscribers
(`useSimplificationProgress` and `SimplifiedTab`) close the dropped connection
and schedule a reconnect after a fixed 3000 ms without surfacing the drop as
job failure — in particular `SimplifiedTab`'s handler leaves the accumulated
chunks and the terminal flag untouched — while the task-status tracker
(`trackTaskStatus`) instead closes without retrying and delivers an error
object to its update callback. -/
theorem sse_retry_behavior :
    (∀ s : TabState,
      (simplifiedTabOnErrorStep s).simplifiedChunks = s.simplifiedChunks ∧
      (simplifiedTabOnErrorStep s).streamingComplete = s.streamingComplete ∧
      (simplifiedTabOnErrorStep s).connectionOpen = false) ∧
    useSimplificationProgressOnError.closesConnection = true ∧
    useSimplificationProgressOnError.reconnectDelayMs = some 3000 ∧
    useSimplificationProgressOnError.deliversErrorToUpdateCallback = false ∧
    simplifiedTabOnError.closesConnection = true ∧
    simplifiedTabOnError.reconnectDelayMs = some 3000 ∧
    simplifiedTabOnError.deliversErrorToUpdateCallback = false ∧
    trackTaskStatusOnError.closesConnection = true ∧
    trackTaskStatusOnError.reconnectDelayMs = none ∧
    trackTaskStatusOnError.deliversErrorToUpdateCallback = true :=
  ⟨fun _ => ⟨rfl, rfl, rfl⟩, rfl, rfl, rfl, rfl, rfl, rfl, rfl, rfl, rfl⟩

/-- C3 counterexample: the active middleware performs no rate limiting, so an
exhausted identity is not answered with 429 plus `Retry-After` — the session
response passes through unchanged. -/
theorem rate_limit_429_counterexample :
    ¬ (∀ (resp : HttpResponse) (r : RateLimitResult), r.success = false →
        (middleware resp).status = 429 ∧
        "Retry-After" ∈ (middleware resp).headers.map Prod.fst) := by
  intro hcl
  have h := hcl ⟨200, []⟩ ⟨false, configuredLimit, 0, 1700000000000⟩ rfl
  simp [middleware] at h

/-- C3 amended: the 429 rejection exists only in the commented-out
rate-limiting branch of `middleware.ts`; the active middleware returns the
session response unchanged. In that commented branch, a failed admission on a
rate-limited path yields status 429 with a `Retry-After` header equal to
`floor((reset - now) / 1000)` (positive whenever the reset lies at least a
second ahead) and a body reporting `remaining: 0` and the reset instant as
`resetAt` — the body itself has no `resetIn` field. -/
theorem rate_limit_429_commented_branch (pathname : String) (r : RateLimitResult)
    (now : Int) (resp : HttpResponse)
    (hpath : RATE_LIMITED_PATHS.any (fun p => jsStartsWith pathname p) = true)
    (hfail : r.success = false)
    (hreset : now + 1000 ≤ r.reset) :
    middleware resp = resp ∧
    (commentedMiddlewareRateLimitBranch pathname r now resp).1.status = 429 ∧
    ("Retry-After", toString ((r.reset - now).fdiv 1000)) ∈
      (commentedMiddlewareRateLimitBranch pathname r now resp).1.headers ∧
    0 < (r.reset - now).fdiv 1000 ∧
    (commentedMiddlewareRateLimitBranch pathname r now resp).2 =
      some ⟨false, r.limit, 0, r.reset⟩ := by
  refine ⟨rfl, ?_, ?_, ?_, ?_⟩
  · simp [commentedMiddlewareRateLimitBranch, hpath, hfail]
  · simp [commentedMiddlewareRateLimitBranch, hpath, hfail]
  · have h1000 : (1000 : Int) ≤ r.reset - now := by omega
    rw [Int.fdiv_eq_ediv _ (by norm_num)]
    calc (0 : Int) < 1 := by norm_num
      _ ≤ (r.reset - now) / 1000 := by
          rw [Int.le_ediv_iff_mul_le (by norm_num)]
          omega
  · simp [commentedMiddlewareRateLimitBranch, hpath, hfail]

/-- Witness for C3's amended statement at a concrete exhausted request. -/
theorem rate_limit_429_commented_branch_witness :
    middleware ⟨200, []⟩ = (⟨200, []⟩ : HttpResponse) ∧
    (commentedMiddlewareRateLimitBranch "/api/files/upload"
        ⟨false, 5, 0, 1700000086400⟩ 1700000000000 ⟨200, []⟩).1.status = 429 ∧
    ("Retry-After", toString (((1700000086400 : Int) - 1700000000000).fdiv 1000)) ∈
      (commentedMiddlewareRateLimitBranch "/api/files/upload"
        ⟨false, 5, 0, 1700000086400⟩ 1700000000000 ⟨200, []⟩).1.headers ∧
    0 < ((1700000086400 : Int) - 1700000000000).fdiv 1000 ∧
    (commentedMiddlewareRateLimitBranch "/api/files/upload"
        ⟨false, 5, 0, 1700000086400⟩ 1700000000000 ⟨200, []⟩).2 =
      some ⟨false, 5, 0, 1700000086400⟩ :=
  rate_limit_429_commented_branch "/api/files/upload" ⟨false, 5, 0, 1700000086400⟩
    1700000000000 ⟨200, []⟩ (by decide) rfl (by decide)

/-- Helper: the number of admitted calls in a burst started at counter value
`c` is `min` of the burst length and the admissions left in the window. -/
lemma runAdmissions_admitted_length (L : Nat) :
    ∀ (calls : List Nat) (c : Nat),
      ((runAdmissions L c calls).filter (fun p => p.2)).length = min calls.length (L - c) := by
  intro calls
  induction calls with
  | nil =>
    intro c
    simp [runAdmissions]
  | cons a cs ih =>
    intro c
    by_cases h : c + 1 ≤ L
    · simp [runAdmissions, limiterLimit, List.filter_cons, decide_eq_true h, ih]
      omega
    · simp [runAdmissions, limiterLimit, List.filter_cons, decide_eq_false h, ih]
      omega

/-- Helper: the number of rejected calls in a burst started at counter value
`c`. -/
lemma runAdmissions_rejected_length (L : Nat) :
    ∀ (calls : List Nat) (c : Nat),
      ((runAdmissions L c calls).filter (fun p => !p.2)).length =
        calls.length - min calls.length (L - c) := by
  intro calls
  induction calls with
  | nil =>
    intro c
    simp [runAdmissions]
  | cons a cs ih =>
    intro c
    by_cases h : c + 1 ≤ L
    · simp [runAdmissions, limiterLimit, List.filter_cons, decide_eq_true h, ih]
      omega
    · simp [runAdmissions, limiterLimit, List.filter_cons, decide_eq_false h, ih]
      omega

/-- C4: on a fresh identity with window limit `L`, a burst of `N` admission
checks admits exactly `min N L` calls and rejects the remaining `N - L`,
whatever the arrival order (any permutation of the same calls admits the same
number), because each check is one atomic increment-and-compare. -/
theorem fresh_identity_burst_admits_min (L : Nat) (calls calls' : List Nat)
    (hperm : calls.Perm calls') :
    admittedCount L calls = min calls.length L ∧
    rejectedCount L calls = calls.length - L ∧
    admittedCount L calls' = admittedCount L calls := by
  have h1 := runAdmissions_admitted_length L calls 0
  have h1' := runAdmissions_admitted_length L calls' 0
  have h2 := runAdmissions_rejected_length L calls 0
  have hlen := hperm.length_eq
  unfold admittedCount rejectedCount
  omega

/-- Witness for C4: three calls against a limit of 2, in two arrival orders. -/
theorem fresh_identity_burst_admits_min_witness :
    admittedCount 2 [10, 20, 30] = min ([10, 20, 30] : List Nat).length 2 ∧
    rejectedCount 2 [10, 20, 30] = ([10, 20, 30] : List Nat).length - 2 ∧
    admittedCount 2 [30, 10, 20] = admittedCount 2 [10, 20, 30] :=
  fresh_identity_burst_admits_min 2 [10, 20, 30] [30, 10, 20] (by decide)

/-- C1: the reassembly of the accumulated chunk map returns the chunk texts
sorted ascending by numeric index, joined with `"\n\n"`; and because every
snapshot overwrites the accumulated map by index, any two arrival orders of
the pushed snapshot messages that leave the same final per-index texts (the
same entries up to order, with duplicate-free indices) reassemble to the same
combined text. -/
theorem reassembly_sorted_and_arrival_order_independent
    (s0 : TabState) (msgs1 msgs2 : List SSEData) (m1 m2 : List (Nat × String))
    (hm1 : m1 = (msgs1.foldl simplifiedTabOnMessage s0).simplifiedChunks)
    (hm2 : m2 = (msgs2.foldl simplifiedTabOnMessage s0).simplifiedChunks)
    (hperm : msgs1.Perm msgs2)
    (hnodup : (m1.map Prod.fst).Nodup)
    (hsame : m1.Perm m2)
    (hne : m1 ≠ []) :
    (∃ l, m1.Perm l ∧ List.Sorted chunkLE l ∧
      getCombinedSimplifiedContent m1 =
        some (String.intercalate "\n\n" (l.map Prod.snd))) ∧
    getCombinedSimplifiedContent m1 = getCombinedSimplifiedContent m2 := by
  have hlen1 : m1.length ≠ 0 := fun h => hne (List.length_eq_zero.mp h)
  have hlen2 : m2.length ≠ 0 := by
    rw [← hsame.length_eq]
    exact hlen1
  constructor
  · refine ⟨List.insertionSort chunkLE m1, (List.perm_insertionSort chunkLE m1).symm,
      List.sorted_insertionSort chunkLE m1, ?_⟩
    unfold getCombinedSimplifiedContent
    rw [if_neg hlen1]
  · have hp : (List.insertionSort chunkLE m1).Perm (List.insertionSort chunkLE m2) :=
      ((List.perm_insertionSort chunkLE m1).trans hsame).trans
        (List.perm_insertionSort chunkLE m2).symm
    have hnd1 : ((List.insertionSort chunkLE m1).map Prod.fst).Nodup :=
      (((List.perm_insertionSort chunkLE m1).map Prod.fst).nodup_iff).mpr hnodup
    have heq := sorted_keyNodup_perm_eq hp (List.sorted_insertionSort chunkLE m1)
      (List.sorted_insertionSort chunkLE m2) hnd1
    unfold getCombinedSimplifiedContent
    rw [if_neg hlen1, if_neg hlen2, heq]

/-- Witness for C1: the snapshot for index 2 arrives before the one that also
carries index 0, and in the reversed arrival order; both reassemble to
`"a\n\nc"`. -/
theorem reassembly_sorted_and_arrival_order_independent_witness :
    (∃ l, ([(0, "a"), (2, "c")] : List (Nat × String)).Perm l ∧ List.Sorted chunkLE l ∧
      getCombinedSimplifiedContent [(0, "a"), (2, "c")] =
        some (String.intercalate "\n\n" (l.map Prod.snd))) ∧
    getCombinedSimplifiedContent [(0, "a"), (2, "c")] =
      getCombinedSimplifiedContent [(2, "c"), (0, "a")] :=
  reassembly_sorted_and_arrival_order_independent
    ⟨[], false, none, 0, false, true⟩
    [⟨none, some [(2, "c"), (0, "a")], some 2, some 2, false, none⟩,
     ⟨none, some [(0, "a"), (2, "c")], some 2, some 2, false, none⟩]
    [⟨none, some [(0, "a"), (2, "c")], some 2, some 2, false, none⟩,
     ⟨none, some [(2, "c"), (0, "a")], some 2, some 2, false, none⟩]
    [(0, "a"), (2, "c")] [(2, "c"), (0, "a")]
    (by decide) (by decide) (by decide) (by decide) (by decide) (by decide)
